import Mathlib

/-!
Shallow embedding of the job-orchestration core of the AI_Video-Generator
repository: the job store (src/storage/db.py), the generation worker
(src/scripts/worker/generate_worker.py), the provider router
(src/video_clients/unified_client.py), the Velo result decoding
(src/video_clients/velo_client.py) and the operation polling script
(src/scripts/check_veo_operation.py).

Wall-clock timestamps, logging, and network transport are abstracted:
remote calls become explicit outcome parameters, and Python exceptions are
modelled as explicit outcome constructors.  Python dictionaries with fixed
key sets become structures whose optional keys are `Option` fields.
-/

namespace AIVideoGen

/-! Data model: the job record as built by
`GenerationWorker.queue_generation_job` (created_at and updated_at are
wall-clock strings and are not modelled). -/

structure JobParams where
  provider : Option String := none
  quality : Option String := none
  duration : Option Nat := none
deriving Repr, DecidableEq

structure Job where
  id : String
  jobType : String
  personaIds : List String
  prompt : String
  parameters : JobParams
  status : String
  progress : Nat
  currentStep : String
  resultUrl : Option String := none
  errorMessage : Option String := none
  workerId : Option String := none
deriving Repr, DecidableEq

/-- Job data as assembled by `queue_generation_job`: status "queued",
progress 0, current_step "queued", no result, no error, no worker. -/
def mkJobData (jobId jobType : String) (personaIds : List String)
    (prompt : String) (params : JobParams) : Job :=
  { id := jobId, jobType := jobType, personaIds := personaIds,
    prompt := prompt, parameters := params,
    status := "queued", progress := 0, currentStep := "queued",
    resultUrl := none, errorMessage := none, workerId := none }

/-! Job store: `DatabaseClient.update_generation_job` builds
`UPDATE generation_jobs SET k1 = v1, ... WHERE id = %s` from whatever keys
appear in the updates dict and executes it with no guard on the current
row contents.  An update dict is modelled as optional fields; a present
field is written, an absent one leaves the column alone. -/

structure JobUpdates where
  status : Option String := none
  progress : Option Nat := none
  currentStep : Option String := none
  resultUrl : Option String := none
  errorMessage : Option String := none
  workerId : Option String := none
deriving Repr, DecidableEq

/-- Effect of one `UPDATE ... SET ... WHERE id = %s` row write: every key
present in the updates dict overwrites the column, unconditionally. -/
def applyUpdates (j : Job) (u : JobUpdates) : Job :=
  { j with
    status := u.status.getD j.status,
    progress := u.progress.getD j.progress,
    currentStep := u.currentStep.getD j.currentStep,
    resultUrl := match u.resultUrl with | some v => some v | none => j.resultUrl,
    errorMessage := match u.errorMessage with | some v => some v | none => j.errorMessage,
    workerId := match u.workerId with | some v => some v | none => j.workerId }

/-- `DatabaseClient.update_generation_job`: applies the updates to every
row whose id matches; there is no check of the current status, so the
write succeeds whatever state the job is in. -/
def update_generation_job (store : List Job) (jobId : String)
    (u : JobUpdates) : List Job :=
  store.map (fun j => if j.id = jobId then applyUpdates j u else j)

/-! Queue: `GenerationWorker._add_to_queue`.  The worker holds a Redis
client (possibly absent) and an in-memory list `self.job_queue` ("mock
queue").  A Redis `lpush` prepends; the mock queue is appended to.  The
whole body is wrapped in try/except whose handler appends to the mock
queue, so the function never raises; the `Except` return type makes that
explicit. -/

inductive RedisClient where
  | absent
  | ok
  | failing
deriving Repr, DecidableEq

structure QueueState where
  redisQueue : List Job := []
  jobQueue : List Job := []
deriving Repr, DecidableEq

/-- `GenerationWorker._add_to_queue`: with a working Redis client the job
is lpushed onto the Redis list; with no Redis client it is appended to the
in-memory mock queue; when the Redis call raises, the except handler
appends the job to the mock queue and returns normally. -/
def add_to_queue (redis : RedisClient) (st : QueueState) (job : Job) :
    Except String QueueState :=
  match redis with
  | .ok => .ok { st with redisQueue := job :: st.redisQueue }
  | .absent => .ok { st with jobQueue := st.jobQueue ++ [job] }
  | .failing => .ok { st with jobQueue := st.jobQueue ++ [job] }

/-- Behaviour of the database client seen from `queue_generation_job`:
absent (`self.db_client` is None), working, or raising on
`create_generation_job`. -/
inductive DbClient where
  | absent
  | ok
  | failing
deriving Repr, DecidableEq

/-- `GenerationWorker.queue_generation_job`: builds the job record, tries
to save it to the database inside try/except (a failure only prints a
warning), then calls `_add_to_queue`, and returns the job id.  Returns
(returned job id, new queue state, new database store). -/
def queue_generation_job (db : DbClient) (redis : RedisClient)
    (st : QueueState) (dbJobs : List Job) (jobId jobType : String)
    (personaIds : List String) (prompt : String) (params : JobParams) :
    String × QueueState × List Job :=
  let jobData := mkJobData jobId jobType personaIds prompt params
  let dbJobs2 := match db with
    | .ok => dbJobs ++ [jobData]
    | .absent => dbJobs
    | .failing => dbJobs
  match add_to_queue redis st jobData with
  | .ok st2 => (jobId, st2, dbJobs2)
  | .error _ => (jobId, st, dbJobs2)

/-! Status polling: `GenerationWorker.get_job_status`.  With a database
client the call is delegated; with none, a fixed mock record is
fabricated for any requested id. -/

structure JobStatusRecord where
  id : String
  status : String
  progress : Nat
  currentStep : String
  resultUrl : Option String := none
deriving Repr, DecidableEq

/-- `GenerationWorker.get_job_status`: delegates to the database client
when one is configured, otherwise returns the hard-coded mock response
for whatever id was asked for. -/
def get_job_status (dbGet : Option (String → Option JobStatusRecord))
    (jobId : String) : Option JobStatusRecord :=
  match dbGet with
  | some g => g jobId
  | none =>
    some { id := jobId, status := "completed", progress := 100,
           currentStep := "completed",
           resultUrl := some ("https://mock-results.com/" ++ jobId ++ ".mp4") }

/-! Provider router: `UnifiedVideoClient` (src/video_clients/unified_client.py).
Registered providers are the keys of `self.providers` in insertion order
(sora is initialised first, then velo); `hasKey p` models
`hasattr(client, api_key) and client.api_key` being truthy.  A provider
call (`client.generate_video`) either returns a dict with success True
and a video url, returns a dict with success False and an error string,
or raises. -/

inductive CallOutcome where
  | ok (videoUrl : String)
  | failed (err : String)
  | raised (err : String)
deriving Repr, DecidableEq

/-- Result dict returned by `UnifiedVideoClient.generate_video` and
`_try_fallback`; each optional field models a key that is only present in
some of the dict literals in the source. -/
structure GenResult where
  success : Bool
  error : Option String := none
  videoUrl : Option String := none
  selectedProvider : Option String := none
  providerSelectionReason : Option String := none
  fallbackUsed : Bool := false
  originalProvider : Option String := none
  attemptedProviders : List String := []
  provider : Option String := none
  availableProviders : List String := []
deriving Repr, DecidableEq

/-- `self.fallback_order = ["velo", "sora"]`. -/
def fallback_order : List String := ["velo", "sora"]

/-- The loop body of `_select_provider` over `self.fallback_order`: a
registered provider with a truthy api_key is returned; sora is returned
even without one ("always available in mock mode"); anything else is
skipped. -/
def first_available (providers : List String) (hasKey : String → Bool) :
    List String → Option String
  | [] => none
  | p :: rest =>
    if providers.contains p then
      if hasKey p then some p
      else if p = "sora" then some p
      else first_available providers hasKey rest
    else first_available providers hasKey rest

/-- `UnifiedVideoClient._select_provider`: an explicitly requested
provider is returned as soon as it is registered (no availability check);
otherwise a non-auto preferred provider that is registered; otherwise the
first available provider in fallback order; otherwise the first
registered provider at all; otherwise None. -/
def select_provider (providers : List String) (hasKey : String → Bool)
    (preferred : String) (requested : Option String) : Option String :=
  if (match requested with
      | some r => providers.contains r
      | none => false) then
    requested
  else if preferred != "auto" && providers.contains preferred then
    some preferred
  else
    match first_available providers hasKey fallback_order with
    | some p => some p
    | none => providers.head?

/-- `UnifiedVideoClient._get_selection_reason`. -/
def get_selection_reason (preferred : String) (selected : String)
    (requested : Option String) : String :=
  match requested with
  | some r =>
    if r = selected then "User requested " ++ selected
    else "User requested " ++ r ++ " but " ++ selected ++
         " was selected due to availability"
  | none =>
    if preferred = selected then "Preferred provider " ++ selected
    else "Auto-selected " ++ selected ++ " based on availability"

/-- Providers eligible for fallback in `_try_fallback`: the fallback
order minus the provider that just failed, restricted to registered
providers. -/
def remaining_providers (providers : List String) (failedProvider : String) :
    List String :=
  fallback_order.filter (fun p => p != failedProvider && providers.contains p)

/-- The loop of `_try_fallback`: each remaining provider is attempted in
order; a call that returns success True is decorated with the fallback
metadata and returned; a call that returns success False or raises is
skipped silently. -/
def try_fallback_loop (call : String → CallOutcome) (failedProvider : String) :
    List String → Option GenResult
  | [] => none
  | p :: rest =>
    match call p with
    | .ok url =>
      some { success := true, videoUrl := some url, fallbackUsed := true,
             originalProvider := some failedProvider,
             selectedProvider := some p,
             providerSelectionReason :=
               some ("Fallback to " ++ p ++ " after " ++ failedProvider ++ " failed") }
    | .failed _ => try_fallback_loop call failedProvider rest
    | .raised _ => try_fallback_loop call failedProvider rest

/-- `UnifiedVideoClient._try_fallback`: when no remaining provider
succeeds, the returned dict carries the fixed error string naming only
the provider that failed first, and the list of attempted provider
names; no per-provider error detail is recorded anywhere. -/
def try_fallback (providers : List String) (call : String → CallOutcome)
    (failedProvider : String) : GenResult :=
  let remaining := remaining_providers providers failedProvider
  match try_fallback_loop call failedProvider remaining with
  | some r => r
  | none =>
    { success := false,
      error := some ("All providers failed. Last error from " ++ failedProvider),
      attemptedProviders := failedProvider :: remaining }

/-- `UnifiedVideoClient.generate_video`: selects a provider, invokes it;
a normally-returned dict (success True or False) is returned with
selection metadata attached; an exception triggers `_try_fallback` only
when no explicit provider was given and more than one provider is
registered, and otherwise is wrapped into a failure dict keyed
"provider". -/
def generate_video (providers : List String) (hasKey : String → Bool)
    (preferred : String) (requested : Option String)
    (call : String → CallOutcome) : GenResult :=
  match select_provider providers hasKey preferred requested with
  | none =>
    { success := false,
      error := some "No video generation providers available",
      availableProviders := providers }
  | some sel =>
    match call sel with
    | .ok url =>
      { success := true, videoUrl := some url, selectedProvider := some sel,
        providerSelectionReason :=
          some (get_selection_reason preferred sel requested) }
    | .failed e =>
      { success := false, error := some e, selectedProvider := some sel,
        providerSelectionReason :=
          some (get_selection_reason preferred sel requested) }
    | .raised e =>
      if requested.isNone && decide (1 < providers.length) then
        try_fallback providers call sel
      else
        { success := false,
          error := some ("Video generation failed: " ++ e),
          provider := some sel }

/-! Worker processing: `GenerationWorker._process_job` and
`_process_video_job`.  Each `_update_job_status` call is recorded as one
`StatusUpdate`; the sequence of updates written for one job is the
observable progress trace of that processing attempt. -/

/-- One `_update_job_status` write: status, progress, current_step, and
the optional result_url / error_message keys, which the method only
includes when the passed value is truthy (non-None and non-empty). -/
structure StatusUpdate where
  status : String
  progress : Nat
  currentStep : String
  resultUrl : Option String := none
  errorMessage : Option String := none
deriving Repr, DecidableEq

/-- Python truthiness filter used by `_update_job_status`: a missing or
empty string is not written to the updates dict. -/
def optIfNonEmpty (s : Option String) : Option String :=
  match s with
  | some v => if v = "" then none else some v
  | none => none

/-- Outcome of the `self.video_client.generate_video` call as seen by
`_process_video_job`: a returned result dict (success flag, optional
video_url, optional error), or a raised exception. -/
inductive ProcOutcome where
  | ret (success : Bool) (videoUrl : Option String) (err : Option String)
  | raise (e : String)
deriving Repr, DecidableEq

/-- Trace of `_update_job_status` writes performed by `_process_job` for
one job: (processing, 10) first; for a video job, (processing, 30), then
on a normal return (processing, 90) followed by the terminal write —
(completed, 100) when success is True, else (failed, 0) with the error
string; every exception (including one raised mid-call and the
ValueError for an unknown job type) is caught and ends in a
(failed, 0, "Processing error") write. -/
def process_job_trace (jobType : String) (outcome : ProcOutcome) :
    List StatusUpdate :=
  { status := "processing", progress := 10,
    currentStep := "Starting generation" } ::
  (if jobType = "video" then
    { status := "processing", progress := 30,
      currentStep := "Generating video" } ::
    (match outcome with
     | .raise e =>
       [{ status := "failed", progress := 0, currentStep := "Processing error",
          errorMessage := optIfNonEmpty (some e) }]
     | .ret success url err =>
       { status := "processing", progress := 90, currentStep := "Finalizing" } ::
       (if success then
         [{ status := "completed", progress := 100,
            currentStep := "Generation completed",
            resultUrl := optIfNonEmpty url }]
        else
         [{ status := "failed", progress := 0,
            currentStep := "Generation failed",
            errorMessage := optIfNonEmpty (some ((err).getD "Unknown error")) }]))
   else
     [{ status := "failed", progress := 0, currentStep := "Processing error",
        errorMessage := optIfNonEmpty (some ("Unknown job type: " ++ jobType)) }])

/-- Boolean check that a progress sequence never decreases. -/
def nonDecreasing : List Nat → Bool
  | [] => true
  | [_] => true
  | a :: b :: rest =>
    if a ≤ b then nonDecreasing (b :: rest) else false

/-! Worker loop: `GenerationWorker.start_worker` repeatedly takes the
next queue item (or sleeps when the queue is empty) and runs
`_process_job` on it; `_process_job` catches every exception itself, so
one iteration of the loop is total and the loop keeps draining whatever
follows. -/

/-- One observation of the worker loop: either a dequeued job (its type
and the outcome of its provider call) or an empty poll (the loop sleeps
and retries). -/
inductive WorkerEvent where
  | job (jobType : String) (outcome : ProcOutcome)
  | empty
deriving Repr, DecidableEq

/-- `GenerationWorker.start_worker` over a finite schedule of loop
iterations: the concatenation of the status writes of every processed
job, in order.  Totality of this function reflects that no job outcome,
raising included, terminates the loop. -/
def run_worker : List WorkerEvent → List StatusUpdate
  | [] => []
  | .job t o :: rest => process_job_trace t o ++ run_worker rest
  | .empty :: rest => run_worker rest

/-! Velo result decoding: `VeloClient._save_video_from_response` and
`_extract_video_url_from_response` (src/video_clients/velo_client.py).
The provider response dict is modelled with one optional field per key
the two functions inspect. -/

structure VideoData where
  bytesBase64Encoded : Option String := none
deriving Repr, DecidableEq

structure GeneratedSample where
  video : Option VideoData := none
deriving Repr, DecidableEq

structure Prediction where
  videoUrl : Option String := none
  videoUri : Option String := none
  generatedSamples : List GeneratedSample := []
deriving Repr, DecidableEq

structure FileData where
  fileUri : Option String := none
deriving Repr, DecidableEq

structure ResponsePart where
  videoUrl : Option String := none
  fileData : Option FileData := none
deriving Repr, DecidableEq

structure Candidate where
  contentParts : Option (List ResponsePart) := none
deriving Repr, DecidableEq

structure VeloResponse where
  predictions : Option (List Prediction) := none
  candidates : Option (List Candidate) := none
  videoUrl : Option String := none
  videoUri : Option String := none
deriving Repr, DecidableEq

/-- Per-prediction lookup in `_extract_video_url_from_response`:
"videoUrl" first, then "video_uri". -/
def pred_url (p : Prediction) : Option String :=
  match p.videoUrl with
  | some u => some u
  | none => p.videoUri

/-- Per-part lookup: "videoUrl" first, then "fileData" whose "fileUri"
defaults to the empty string. -/
def part_url (pt : ResponsePart) : Option String :=
  match pt.videoUrl with
  | some u => some u
  | none =>
    match pt.fileData with
    | some fd => some (fd.fileUri.getD "")
    | none => none

/-- Per-candidate lookup: the parts of "content", first part that
yields a url. -/
def candidate_url (c : Candidate) : Option String :=
  match c.contentParts with
  | some parts => parts.findSome? part_url
  | none => none

/-- `VeloClient._extract_video_url_from_response`: tries the Vertex
predictions shape, then the Generative AI candidates shape, then the two
direct keys, and when nothing matches fabricates a placeholder URL from
a fresh 12-hex-digit id (`uuid.uuid4().hex` truncated, passed here as
`freshId`). -/
def extract_video_url_from_response (freshId : String) (r : VeloResponse) :
    String :=
  match r.predictions.bind (fun ps => ps.findSome? pred_url) with
  | some u => u
  | none =>
    match r.candidates.bind (fun cs => cs.findSome? candidate_url) with
    | some u => u
    | none =>
      match r.videoUrl with
      | some u => u
      | none =>
        match r.videoUri with
        | some u => u
        | none =>
          "https://storage.googleapis.com/velo-generated-videos/" ++
            freshId ++ ".mp4"

/-- `VeloClient._save_video_from_response`: walks
predictions[0].generatedSamples[0].video.bytesBase64Encoded; each missing
or empty link makes it return None (the same None for every shape
mismatch); with a non-empty base64 payload it decodes and writes the
file, returning the timestamped filename.  Base64 decoding and the file
write are abstracted as always succeeding. -/
def save_video_from_response (timestamp : String) (r : VeloResponse) :
    Option String :=
  match (r.predictions.getD []).head? with
  | none => none
  | some pred =>
    match pred.generatedSamples.head? with
    | none => none
    | some sample =>
      match (sample.video.getD {}).bytesBase64Encoded with
      | none => none
      | some b =>
        if b = "" then none
        else some ("veo_video_" ++ timestamp ++ ".mp4")

/-! Operation polling: `check_operation_status`
(src/scripts/check_veo_operation.py).  The HTTP POST to the
fetchPredictOperation endpoint is abstracted as a function from the
operationName sent in the payload to a status code and a response body. -/

/-- Character-level check that `p` is a leading segment of `l`; used to
embed the substring tests of the Python source executably. -/
def charsHavePfx : List Char → List Char → Bool
  | [], _ => true
  | _ :: _, [] => false
  | a :: as, b :: bs => a == b && charsHavePfx as bs

/-- Whether `pat` occurs anywhere inside `l` (the `pat in s` test of the
Python source). -/
def charsContain (pat : List Char) : List Char → Bool
  | [] => charsHavePfx pat []
  | b :: bs => charsHavePfx pat (b :: bs) || charsContain pat bs

/-- String-level substring test. -/
def strContains (s pat : String) : Bool := charsContain pat.data s.data

/-- Suffix that follows the last occurrence of `sep` in `l`, or none when
`sep` does not occur.  On inputs whose occurrences of the separator do
not overlap one another this is exactly `l.split(sep)[-1]` when the
separator is present. -/
def afterLastSep (sep : List Char) : List Char → Option (List Char)
  | [] => none
  | b :: bs =>
    match afterLastSep sep bs with
    | some r => some r
    | none =>
      if charsHavePfx sep (b :: bs) then some ((b :: bs).drop sep.length)
      else none

/-- Short form of the operation handle:
`operation_id.split("/operations/")[-1]` when the separator occurs,
otherwise the id unchanged. -/
def short_operation_name (operationId : String) : String :=
  match afterLastSep "/operations/".data operationId.data with
  | some r => String.mk r
  | none => operationId

/-- Fully-qualified form of the operation handle: the id itself when it
already starts with "projects/", otherwise the id spliced into the fixed
model resource path. -/
def full_operation_path (modelName : String) (operationId : String) : String :=
  if charsHavePfx "projects/".data operationId.data then operationId
  else
    "projects/your-project-id/locations/us-central1/publishers/google/models/"
      ++ modelName ++ "/operations/" ++ operationId

structure FetchResponse where
  statusCode : Nat
  body : String
deriving Repr, DecidableEq

/-- `check_operation_status`: posts the fully-qualified operation name
first; on a 404 response posts again with the short name; returns the
parsed body on a 200, None on anything else. -/
def check_operation_status (fetch : String → FetchResponse)
    (modelName : String) (operationId : String) : Option String :=
  let r1 := fetch (full_operation_path modelName operationId)
  let r2 := if r1.statusCode = 404 then fetch (short_operation_name operationId)
            else r1
  if r2.statusCode = 200 then some r2.body else none

/-! Theorems -/

/-- A job whose status has already reached cancelled, exactly as a
cancellation request leaves it. -/
def cancelledJob : Job :=
  { id := "job1", jobType := "video", personaIds := [], prompt := "p",
    parameters := {}, status := "cancelled", progress := 30,
    currentStep := "cancelled" }

/-- The terminal write `_process_job` issues on success. -/
def workerTerminalWrite : JobUpdates :=
  { status := some "completed", progress := some 100,
    currentStep := some "Generation completed" }

/-- C1 counterexample: the job store does not reject a late terminal
write on a cancelled job — `update_generation_job` applied to a store
holding a cancelled job with the worker's completed write leaves the
job with status "completed", not "cancelled". -/
theorem cancelled_job_status_becomes_completed :
    (update_generation_job [cancelledJob] "job1" workerTerminalWrite).map
        Job.status = ["completed"] := by rfl

/-- C1 (amended): `update_generation_job` applies every write
unconditionally, whatever the current status of the row; in particular a
worker terminal write issued after a job was cancelled overwrites the
cancelled status with the written one. -/
theorem update_overwrites_cancelled_status (store : List Job) (j : Job)
    (jobId : String) (u : JobUpdates) (s : String)
    (hmem : j ∈ store) (hid : j.id = jobId)
    (_hcancel : j.status = "cancelled") (hs : u.status = some s) :
    applyUpdates j u ∈ update_generation_job store jobId u ∧
    (applyUpdates j u).status = s := by
  constructor
  · have h := List.mem_map_of_mem
      (fun x => if x.id = jobId then applyUpdates x u else x) hmem
    simpa [update_generation_job, hid] using h
  · simp [applyUpdates, hs]

/-- Witness for the amended C1 theorem at a concrete cancelled job and
the worker's completed write. -/
theorem update_overwrites_cancelled_status_witness :
    applyUpdates cancelledJob workerTerminalWrite ∈
      update_generation_job [cancelledJob] "job1" workerTerminalWrite ∧
    (applyUpdates cancelledJob workerTerminalWrite).status = "completed" :=
  update_overwrites_cancelled_status [cancelledJob] cancelledJob "job1"
    workerTerminalWrite "completed" (by decide) (by decide) (by decide)
    (by decide)

/-- A freshly created job record, as enqueue builds it. -/
def sampleJob : Job := mkJobData "j1" "video" [] "a calm lake at sunrise" {}

/-- C2 counterexample: with a Redis client whose enqueue raises,
`_add_to_queue` still returns success and the job lands on the in-memory
mock queue; the call does not fail to the caller. -/
theorem enqueue_reports_success_on_redis_failure :
    add_to_queue .failing {} sampleJob =
      .ok { redisQueue := [], jobQueue := [sampleJob] } := by rfl

/-- C2 (amended): when the Redis enqueue raises, `_add_to_queue` catches
the error, silently appends the job to the non-durable in-memory queue,
and returns normally; `queue_generation_job` then still reports the job
id to the caller as a successful enqueue. -/
theorem redis_failure_falls_back_to_mock_queue (db : DbClient)
    (st : QueueState) (dbJobs : List Job) (jobId jobType : String)
    (ps : List String) (prompt : String) (params : JobParams) :
    add_to_queue .failing st (mkJobData jobId jobType ps prompt params) =
      .ok { st with jobQueue :=
        st.jobQueue ++ [mkJobData jobId jobType ps prompt params] } ∧
    (queue_generation_job db .failing st dbJobs jobId jobType ps prompt
        params).1 = jobId := by
  refine ⟨rfl, ?_⟩
  cases db <;> rfl

/-- C3 counterexample: requesting explicit provider "sora" when it is
not registered does not fail with a provider-unavailable error — the
router silently selects "velo" instead and the generate call succeeds
through the substituted provider. -/
theorem explicit_unavailable_provider_silently_replaced :
    generate_video ["velo"] (fun _ => false) "auto" (some "sora")
        (fun _ => .ok "https://v.example/out.mp4") =
      { success := true, videoUrl := some "https://v.example/out.mp4",
        selectedProvider := some "velo",
        providerSelectionReason :=
          some "User requested sora but velo was selected due to availability" } := by
  rfl

/-- C3 (amended): an explicitly requested provider is honoured as soon
as it is registered, with no availability check at all; when its call
then raises, no fallback is attempted and the caller gets a failure dict
wrapping the raised error (not a provider-unavailable error), while an
explicit provider that is not registered is silently replaced by
automatic selection rather than failing. -/
theorem explicit_provider_used_without_availability_check
    (providers : List String) (hasKey : String → Bool) (r e : String)
    (hreg : providers.contains r = true) :
    select_provider providers hasKey "auto" (some r) = some r ∧
    generate_video providers hasKey "auto" (some r) (fun _ => .raised e) =
      { success := false, error := some ("Video generation failed: " ++ e),
        provider := some r } := by
  have hmemb : r ∈ providers := by simpa using hreg
  have hsel : select_provider providers hasKey "auto" (some r) = some r := by
    simp [select_provider, hreg, hmemb]
  refine ⟨hsel, ?_⟩
  simp [generate_video, hsel]

/-- Witness for the amended C3 theorem: explicit "velo" with no
credential at all is still selected and its raised error is returned
without fallback. -/
theorem explicit_provider_used_without_availability_check_witness :
    select_provider ["sora", "velo"] (fun _ => false) "auto" (some "velo") =
      some "velo" ∧
    generate_video ["sora", "velo"] (fun _ => false) "auto" (some "velo")
        (fun _ => .raised "credential rejected") =
      { success := false,
        error := some ("Video generation failed: " ++ "credential rejected"),
        provider := some "velo" } :=
  explicit_provider_used_without_availability_check ["sora", "velo"]
    (fun _ => false) "velo" "credential rejected" (by decide)

/-- Call table in which every provider raises, each with its own
distinct error. -/
def callAllRaise : String → CallOutcome := fun p =>
  if p = "velo" then .raised "errA" else .raised "errB"

/-- C4 counterexample: with both providers raising distinct errors, the
aggregated failure names only the attempted providers and carries the
fixed message naming the first failed provider; neither provider's
specific error ("errA", "errB") appears anywhere in it. -/
theorem aggregate_failure_omits_provider_errors :
    generate_video ["sora", "velo"] (fun _ => true) "auto" none callAllRaise =
      { success := false,
        error := some "All providers failed. Last error from velo",
        attemptedProviders := ["velo", "sora"] } ∧
    strContains "All providers failed. Last error from velo" "errA" = false ∧
    strContains "All providers failed. Last error from velo" "errB" = false :=
  ⟨by rfl, by rfl, by rfl⟩

/-- Whether a provider call produced a success result dict. -/
def CallOutcome.isOk : CallOutcome → Bool
  | .ok _ => true
  | .failed _ => false
  | .raised _ => false

/-- Helper: the fallback loop returns nothing when no remaining provider
call succeeds. -/
theorem try_fallback_loop_none_of_no_success (call : String → CallOutcome)
    (f : String) (l : List String)
    (h : ∀ p ∈ l, (call p).isOk = false) :
    try_fallback_loop call f l = none := by
  induction l with
  | nil => rfl
  | cons p rest ih =>
    have hp := h p (List.mem_cons_self p rest)
    have hr := ih (fun q hq => h q (List.mem_cons_of_mem p hq))
    cases hc : call p with
    | ok u => simp [CallOutcome.isOk, hc] at hp
    | failed e => simp [try_fallback_loop, hc, hr]
    | raised e => simp [try_fallback_loop, hc, hr]

/-- C4 (amended): when every candidate provider fails, `_try_fallback`
returns a failure whose attempted_providers field lists the names of the
attempted providers, but whose error is the fixed string naming only the
initially failed provider — it records no per-provider error detail. -/
theorem all_fail_aggregate_failure_shape (providers : List String)
    (call : String → CallOutcome) (f : String)
    (h : ∀ p ∈ remaining_providers providers f, (call p).isOk = false) :
    try_fallback providers call f =
      { success := false,
        error := some ("All providers failed. Last error from " ++ f),
        attemptedProviders := f :: remaining_providers providers f } := by
  have hl := try_fallback_loop_none_of_no_success call f
    (remaining_providers providers f) h
  simp [try_fallback, hl]

/-- Witness for the amended C4 theorem at the concrete two-provider
all-raise table. -/
theorem all_fail_aggregate_failure_shape_witness :
    try_fallback ["sora", "velo"] callAllRaise "velo" =
      { success := false,
        error := some ("All providers failed. Last error from " ++ "velo"),
        attemptedProviders :=
          "velo" :: remaining_providers ["sora", "velo"] "velo" } :=
  all_fail_aggregate_failure_shape ["sora", "velo"] callAllRaise "velo"
    (by decide)

/-- C5 counterexample: a processing attempt whose provider call returns
an unsuccessful result writes progress 10, 30, 90 and then a terminal
failed write with progress 0, so the observed progress sequence of that
attempt decreases at the end. -/
theorem failed_attempt_progress_not_monotone :
    (process_job_trace "video" (.ret false none (some "provider error"))).map
        StatusUpdate.progress = [10, 30, 90, 0] ∧
    nonDecreasing ((process_job_trace "video"
        (.ret false none (some "provider error"))).map
          StatusUpdate.progress) = false :=
  ⟨by rfl, by rfl⟩

/-- C5 (amended): within one processing attempt the progress writes are
10, 30, 90, 100 on success — monotonically non-decreasing — but an
attempt that ends in failed writes a final progress of 0 (sequence
10, 30, 90, 0 after an unsuccessful result, 10, 30, 0 after a raised
error), so monotonicity holds only for attempts that complete
successfully. -/
theorem progress_trace_shapes (u e : String) :
    (process_job_trace "video" (.ret true (some u) none)).map
        StatusUpdate.progress = [10, 30, 90, 100] ∧
    nonDecreasing [10, 30, 90, 100] = true ∧
    (process_job_trace "video" (.ret false none (some e))).map
        StatusUpdate.progress = [10, 30, 90, 0] ∧
    (process_job_trace "video" (.raise e)).map
        StatusUpdate.progress = [10, 30, 0] :=
  ⟨by rfl, by rfl, by rfl, by rfl⟩

/-- C6 counterexample: a provider payload matching neither the inline
base64 shape nor any URL shape does not produce a decode error —
`_extract_video_url_from_response` fabricates a placeholder result URL
from a fresh random id, and `_save_video_from_response` returns the same
None it returns for every other miss. -/
theorem unrecognized_payload_fabricates_url :
    extract_video_url_from_response "abc123def456" {} =
      "https://storage.googleapis.com/velo-generated-videos/abc123def456.mp4" ∧
    save_video_from_response "20250101_000000" {} = none :=
  ⟨by rfl, by rfl⟩

/-- Whether a response matches the remote URI reference shape: some URL
lookup of `_extract_video_url_from_response` — the predictions walk, the
candidates walk, or one of the two direct keys — succeeds. -/
def hasUriReference (r : VeloResponse) : Bool :=
  (r.predictions.bind (fun ps => ps.findSome? pred_url)).isSome ||
  (r.candidates.bind (fun cs => cs.findSome? candidate_url)).isSome ||
  r.videoUrl.isSome || r.videoUri.isSome

/-- Whether a response matches the inline base64 asset shape walked by
`_save_video_from_response`: a first prediction with a first generated
sample whose video carries a non-empty bytesBase64Encoded payload. -/
def hasInlineAsset (r : VeloResponse) : Bool :=
  match (r.predictions.getD []).head? with
  | none => false
  | some pred =>
    match pred.generatedSamples.head? with
    | none => false
    | some sample =>
      match (sample.video.getD {}).bytesBase64Encoded with
      | none => false
      | some b => if b = "" then false else true

/-- C6 (amended): for every payload matching neither recognised shape —
no URL lookup succeeds and no inline base64 asset is present — result
decoding never raises a distinguishable decode error: saving returns the
None sentinel, and URL extraction fabricates the placeholder reference
built from a fresh id. -/
theorem unrecognized_payload_behavior (freshId timestamp : String)
    (r : VeloResponse) (hnoUri : hasUriReference r = false)
    (hnoAsset : hasInlineAsset r = false) :
    extract_video_url_from_response freshId r =
      "https://storage.googleapis.com/velo-generated-videos/" ++
        freshId ++ ".mp4" ∧
    save_video_from_response timestamp r = none := by
  have h1 : r.predictions.bind (fun ps => ps.findSome? pred_url) = none := by
    cases hx : r.predictions.bind (fun ps => ps.findSome? pred_url) with
    | none => rfl
    | some u => simp [hasUriReference, hx] at hnoUri
  have h2 : r.candidates.bind (fun cs => cs.findSome? candidate_url) = none := by
    cases hx : r.candidates.bind (fun cs => cs.findSome? candidate_url) with
    | none => rfl
    | some u => simp [hasUriReference, hx] at hnoUri
  have h3 : r.videoUrl = none := by
    cases hx : r.videoUrl with
    | none => rfl
    | some u => simp [hasUriReference, hx] at hnoUri
  have h4 : r.videoUri = none := by
    cases hx : r.videoUri with
    | none => rfl
    | some u => simp [hasUriReference, hx] at hnoUri
  constructor
  · simp [extract_video_url_from_response, h1, h2, h3, h4]
  · cases hp : (r.predictions.getD []).head? with
    | none => simp [save_video_from_response, hp]
    | some pred =>
      cases hs : pred.generatedSamples.head? with
      | none => simp [save_video_from_response, hp, hs]
      | some sample =>
        cases hb : (sample.video.getD {}).bytesBase64Encoded with
        | none => simp [save_video_from_response, hp, hs, hb]
        | some b =>
          have hbe : b = "" := by
            simpa [hasInlineAsset, hp, hs, hb] using hnoAsset
          simp [save_video_from_response, hp, hs, hb, hbe]

/-- Witness for the amended C6 theorem at the concrete empty response,
which matches neither shape. -/
theorem unrecognized_payload_behavior_witness :
    extract_video_url_from_response "abc123def456" ({} : VeloResponse) =
      "https://storage.googleapis.com/velo-generated-videos/" ++
        "abc123def456" ++ ".mp4" ∧
    save_video_from_response "20250101_000000" ({} : VeloResponse) = none :=
  unrecognized_payload_behavior "abc123def456" "20250101_000000" {}
    (by decide) (by decide)

/-- C7: polling addresses the fully-qualified handle first — a 200 on
the qualified form is returned directly — and on a 404 for the
qualified form the poll is retried exactly once with the short form, so
a handle resolvable only in short form still succeeds for the caller. -/
theorem poll_retries_short_form_once (fetch : String → FetchResponse)
    (modelName operationId : String) :
    (∀ b, fetch (full_operation_path modelName operationId) =
        { statusCode := 200, body := b } →
      check_operation_status fetch modelName operationId = some b) ∧
    (∀ r, (fetch (full_operation_path modelName operationId)).statusCode = 404 →
      fetch (short_operation_name operationId) =
        { statusCode := 200, body := r } →
      check_operation_status fetch modelName operationId = some r) := by
  constructor
  · intro b hfull
    simp [check_operation_status, hfull]
  · intro r hfull hshort
    simp [check_operation_status, hfull, hshort]

/-- Fetch oracle under which only the bare operation id resolves: the
qualified form gets a 404, the short form a 200. -/
def shortOnlyFetch : String → FetchResponse := fun s =>
  if s = "op-123" then { statusCode := 200, body := "operation-result" }
  else { statusCode := 404, body := "operation not found" }

/-- Witness for C7: against `shortOnlyFetch`, polling the handle
"op-123" succeeds with the short-form response. -/
theorem poll_retries_short_form_once_witness :
    check_operation_status shortOnlyFetch "veo-3.1-generate-preview"
        "op-123" = some "operation-result" :=
  (poll_retries_short_form_once shortOnlyFetch "veo-3.1-generate-preview"
      "op-123").2 "operation-result" (by decide) (by decide)

/-- C8: the worker loop is unaffected by a job whose processing raises —
the schedule decomposes so that every event before and after the raising
job is processed exactly as it would be alone, and the raising job
itself ends with a terminal failed write recording the raised error
message. -/
theorem worker_loop_survives_job_failure (pre post : List WorkerEvent)
    (e : String) (hne : e ≠ "") :
    run_worker (pre ++ WorkerEvent.job "video" (.raise e) :: post) =
      run_worker pre ++ process_job_trace "video" (.raise e) ++
        run_worker post ∧
    process_job_trace "video" (.raise e) =
      [{ status := "processing", progress := 10,
         currentStep := "Starting generation" },
       { status := "processing", progress := 30,
         currentStep := "Generating video" },
       { status := "failed", progress := 0, currentStep := "Processing error",
         errorMessage := some e }] := by
  constructor
  · induction pre with
    | nil => simp [run_worker]
    | cons ev rest ih =>
      cases ev <;> simp [run_worker, ih]
  · simp [process_job_trace, optIfNonEmpty, hne]

/-- Witness for C8 at a concrete schedule: an empty poll, then a raising
job, then a successful job that is still processed. -/
theorem worker_loop_survives_job_failure_witness :
    run_worker ([WorkerEvent.empty] ++ WorkerEvent.job "video"
        (.raise "boom") :: [WorkerEvent.job "video"
          (.ret true (some "https://v.example/ok.mp4") none)]) =
      run_worker [WorkerEvent.empty] ++
        process_job_trace "video" (.raise "boom") ++
        run_worker [WorkerEvent.job "video"
          (.ret true (some "https://v.example/ok.mp4") none)] ∧
    process_job_trace "video" (.raise "boom") =
      [{ status := "processing", progress := 10,
         currentStep := "Starting generation" },
       { status := "processing", progress := 30,
         currentStep := "Generating video" },
       { status := "failed", progress := 0, currentStep := "Processing error",
         errorMessage := some "boom" }] :=
  worker_loop_survives_job_failure [WorkerEvent.empty]
    [WorkerEvent.job "video" (.ret true (some "https://v.example/ok.mp4") none)]
    "boom" (by decide)

/-- C9: when the database write of the new job record raises,
`queue_generation_job` swallows the exception, leaves the job store
unchanged, still appends the job to the queue, and still returns the new
job id — the caller holds an id for a queued job that is absent from the
store. -/
theorem db_failure_still_queues_and_returns_id (st : QueueState)
    (dbJobs : List Job) (jobId jobType : String) (ps : List String)
    (prompt : String) (params : JobParams) :
    queue_generation_job .failing .absent st dbJobs jobId jobType ps prompt
        params =
      (jobId,
       { st with jobQueue :=
           st.jobQueue ++ [mkJobData jobId jobType ps prompt params] },
       dbJobs) := rfl

/-- C10: with no database client configured, `get_job_status` fabricates
for every requested id — submitted or not — a record with status
completed, progress 100, and a non-empty mock result URL; it never
answers that the job was not found. -/
theorem no_db_get_job_status_fabricates_completed (jobId : String) :
    get_job_status none jobId =
      some { id := jobId, status := "completed", progress := 100,
             currentStep := "completed",
             resultUrl :=
               some ("https://mock-results.com/" ++ jobId ++ ".mp4") } ∧
    ("https://mock-results.com/" ++ jobId ++ ".mp4") ≠ "" := by
  refine ⟨rfl, ?_⟩
  intro h
  have hlen := congrArg String.length h
  simp [String.length_append] at hlen
  exact absurd hlen.2 (by decide)

end AIVideoGen
